import Mathlib

/-!
# Verification development for the ART build plugin (`android/art/build`)

A shallow embedding of `art.go`, `codegen.go` and `makevars.go`.

Conventions of the embedding

* Go strings are Lean strings; Go's byte-wise string order agrees with the
  code-point order of Lean strings on well-formed UTF-8 text.
* A Go `map[string]V` is an association list with distinct keys (`AList`).
  Ranging over a map visits the keys in an unspecified order; the embedding
  visits them in the stored order, and every place where the source ranges
  over a map sorts the keys afterwards (`sortStrings_eq_of_perm` shows the
  result does not depend on the order visited).
* The build system's contexts are records: the configuration that the source
  reads (`Config`), and the calls the source makes on the context, logged in
  order (`ModuleErrorf`, `AppendProperties`, `Strict`).
* `artTestMutex` serialises `testInstall`; the embedding is the sequential
  semantics of one locked section.
-/

namespace Art

/-! ## Go library primitives used by the sources -/

/-- Decision procedure for the order of strings, computed on the character lists. -/
def stringLEDecidable (a b : String) : Decidable (a ≤ b) :=
  decidable_of_iff (a.data ≤ b.data) String.le_iff_toList_le.symm

/-- Go `sort.Strings`: the ascending rearrangement of a list of strings. -/
def sortStrings (l : List String) : List String :=
  @List.insertionSort String (· ≤ ·) stringLEDecidable l

/-- Splitting of a character list at every occurrence of the separator character. -/
def splitChars (sep : Char) : List Char → List (List Char)
  | [] => [[]]
  | c :: cs =>
    if c = sep then [] :: splitChars sep cs
    else
      match splitChars sep cs with
      | [] => [[c]]
      | w :: ws => (c :: w) :: ws

/-- Go `strings.Split(s, sep)` for a separator of one character: the pieces of `s`
between consecutive separators, empty pieces included. -/
def stringsSplit (s : String) (sep : Char) : List String :=
  (splitChars sep s.data).map String.mk

/-- Go `fmt.Sprintf` with a format that ends in its only verb `%d`: `pre` is the text
before the verb. -/
def sprintfD (pre : String) (n : Nat) : String :=
  pre ++ toString n

/-- The space character, the separator of the architecture lists. -/
def space : Char := Char.ofNat 32

/-! ## The build system's data, as far as the sources read it -/

/-- Soong `android.ArchType`. -/
structure ArchType where
  Name : String
deriving DecidableEq

/-- Soong `ArchType.String()`. -/
def ArchType.toName (a : ArchType) : String := a.Name

/-- Soong `android.Arch`. -/
structure Arch where
  ArchType : Art.ArchType
deriving DecidableEq

/-- The parts of `android.Config` and `android.DeviceConfig` that the sources read.
`Getenv` returns the empty string for a variable that is not set. -/
structure Config where
  Getenv : String → String
  ArtUseReadBarrier : Bool
  SanitizeDevice : List String
  SanitizeHost : List String
  LibartImgDeviceBaseAddress : String
  LibartImgHostBaseAddress : String
  Arches : List Arch

/-- The map behind `testMap(config)`: test identifier to installed paths. -/
abbrev TestMap := AList (fun _ : String => List String)

/-! ## art.go -/

def supportedArches : List String := ["arm", "arm64", "mips", "mips64", "x86", "x86_64"]

def envDefault (ctx : Config) (key : String) (defaultValue : String) : String :=
  let ret := ctx.Getenv key
  if ret = "" then defaultValue else ret

def envTrue (ctx : Config) (key : String) : Bool :=
  ctx.Getenv key = "true"

def envFalse (ctx : Config) (key : String) : Bool :=
  ctx.Getenv key = "false"

def envTrueOrDefault (ctx : Config) (key : String) : Bool :=
  ctx.Getenv key ≠ "false"

/-- The function `globalFlags` of art.go; the result is `(cflags, asflags)`. -/
def globalFlags (ctx : Config) : List String × List String :=
  let cflags : List String := []
  let asflags : List String := []
  let opt := envDefault ctx "ART_NDEBUG_OPT_FLAG" "-O3"
  let cflags := cflags ++ [opt]
  let tlab := false
  let gcType := envDefault ctx "ART_DEFAULT_GC_TYPE" "CMS"
  let gcType := if envTrue ctx "ART_TEST_DEBUG_GC" then "SS" else gcType
  let tlab := if envTrue ctx "ART_TEST_DEBUG_GC" then true else tlab
  let cflags := cflags ++ ["-DART_DEFAULT_GC_TYPE_IS_" ++ gcType]
  let cflags := if tlab then cflags ++ ["-DART_USE_TLAB=1"] else cflags
  let imtSize := envDefault ctx "ART_IMT_SIZE" "43"
  let cflags := cflags ++ ["-DIMT_SIZE=" ++ imtSize]
  let heapPoisoning := envTrue ctx "ART_HEAP_POISONING"
  let cflags := if heapPoisoning then cflags ++ ["-DART_HEAP_POISONING=1"] else cflags
  let asflags := if heapPoisoning then asflags ++ ["-DART_HEAP_POISONING=1"] else asflags
  let readBarrier := !envFalse ctx "ART_USE_READ_BARRIER" && ctx.ArtUseReadBarrier
  let barrierType := envDefault ctx "ART_READ_BARRIER_TYPE" "BAKER"
  let cflags :=
    if readBarrier then
      cflags ++ ["-DART_USE_READ_BARRIER=1",
        "-DART_READ_BARRIER_TYPE_IS_" ++ barrierType ++ "=1"]
    else cflags
  let asflags :=
    if readBarrier then
      asflags ++ ["-DART_USE_READ_BARRIER=1",
        "-DART_READ_BARRIER_TYPE_IS_" ++ barrierType ++ "=1"]
    else asflags
  let cdexLevel := envDefault ctx "ART_DEFAULT_COMPACT_DEX_LEVEL" "fast"
  let cflags := cflags ++ ["-DART_DEFAULT_COMPACT_DEX_LEVEL=" ++ cdexLevel]
  let cflags :=
    if 0 < ctx.SanitizeDevice.length ∨ 0 < ctx.SanitizeHost.length then
      cflags ++ [
        "-DART_STACK_OVERFLOW_GAP_arm=8192",
        "-DART_STACK_OVERFLOW_GAP_arm64=8192",
        "-DART_STACK_OVERFLOW_GAP_mips=16384",
        "-DART_STACK_OVERFLOW_GAP_mips64=16384",
        "-DART_STACK_OVERFLOW_GAP_x86=16384",
        "-DART_STACK_OVERFLOW_GAP_x86_64=20480"]
    else
      cflags ++ [
        "-DART_STACK_OVERFLOW_GAP_arm=8192",
        "-DART_STACK_OVERFLOW_GAP_arm64=8192",
        "-DART_STACK_OVERFLOW_GAP_mips=16384",
        "-DART_STACK_OVERFLOW_GAP_mips64=16384",
        "-DART_STACK_OVERFLOW_GAP_x86=8192",
        "-DART_STACK_OVERFLOW_GAP_x86_64=8192"]
  let addressSanitizer := envTrue ctx "ART_ENABLE_ADDRESS_SANITIZER"
  let cflags := if addressSanitizer then cflags ++ ["-DART_ENABLE_ADDRESS_SANITIZER=1"] else cflags
  let asflags :=
    if addressSanitizer then asflags ++ ["-DART_ENABLE_ADDRESS_SANITIZER=1"] else asflags
  let asflags :=
    if envTrue ctx "ART_MIPS32_CHECK_ALIGNMENT" then asflags ++ ["-DART_MIPS32_CHECK_ALIGNMENT"]
    else asflags
  let cflags :=
    if envTrueOrDefault ctx "USE_D8_DESUGAR" then cflags ++ ["-DUSE_D8_DESUGAR=1"] else cflags
  (cflags, asflags)

/-- The function `deviceFlags` of art.go. -/
def deviceFlags (ctx : Config) : List String :=
  let cflags : List String := []
  let deviceFrameSizeLimit := 1736
  let deviceFrameSizeLimit :=
    if 0 < ctx.SanitizeDevice.length then 7400 else deviceFrameSizeLimit
  let cflags := cflags ++ [
    sprintfD "-Wframe-larger-than=" deviceFrameSizeLimit,
    sprintfD "-DART_FRAME_SIZE_LIMIT=" deviceFrameSizeLimit]
  let cflags := cflags ++ ["-DART_BASE_ADDRESS=" ++ ctx.LibartImgDeviceBaseAddress]
  let cflags :=
    if envTrue ctx "ART_TARGET_LINUX" then cflags ++ ["-DART_TARGET_LINUX"]
    else cflags ++ ["-DART_TARGET_ANDROID"]
  let minDelta := envDefault ctx "LIBART_IMG_TARGET_MIN_BASE_ADDRESS_DELTA" "-0x1000000"
  let maxDelta := envDefault ctx "LIBART_IMG_TARGET_MAX_BASE_ADDRESS_DELTA" "0x1000000"
  let cflags := cflags ++ ["-DART_BASE_ADDRESS_MIN_DELTA=" ++ minDelta]
  let cflags := cflags ++ ["-DART_BASE_ADDRESS_MAX_DELTA=" ++ maxDelta]
  cflags

/-- The function `hostFlags` of art.go. -/
def hostFlags (ctx : Config) : List String :=
  let cflags : List String := []
  let hostFrameSizeLimit := 1736
  let hostFrameSizeLimit :=
    if 0 < ctx.SanitizeHost.length then 6400 else hostFrameSizeLimit
  let cflags := cflags ++ [
    sprintfD "-Wframe-larger-than=" hostFrameSizeLimit,
    sprintfD "-DART_FRAME_SIZE_LIMIT=" hostFrameSizeLimit]
  let cflags := cflags ++ ["-DART_BASE_ADDRESS=" ++ ctx.LibartImgHostBaseAddress]
  let minDelta := envDefault ctx "LIBART_IMG_HOST_MIN_BASE_ADDRESS_DELTA" "-0x1000000"
  let maxDelta := envDefault ctx "LIBART_IMG_HOST_MAX_BASE_ADDRESS_DELTA" "0x1000000"
  let cflags := cflags ++ ["-DART_BASE_ADDRESS_MIN_DELTA=" ++ minDelta]
  let cflags := cflags ++ ["-DART_BASE_ADDRESS_MAX_DELTA=" ++ maxDelta]
  let cflags :=
    if 0 < ctx.SanitizeHost.length ∧ ¬ (envFalse ctx "ART_ENABLE_ADDRESS_SANITIZER" = true) then
      cflags ++ ["-DART_ENABLE_ADDRESS_SANITIZER=1"]
    else cflags
  cflags

/-- What `testInstall` reads from its `android.InstallHookContext`: `Host()`, `Arch()`,
`ModuleName()` and `Path().RelPathString()`. -/
structure InstallHookContext where
  Host : Bool
  Arch : Art.Arch
  ModuleName : String
  RelPathString : String

/-- The function `testInstall` of art.go, on the map that `testMap(ctx.AConfig())`
returns; the result is the map after the locked section. -/
def testInstall (ctx : InstallHookContext) (testMap : TestMap) : TestMap :=
  let name := if ctx.Host then "host_" else "device_"
  let name := name ++ (ctx.Arch.ArchType.toName ++ "_" ++ ctx.ModuleName)
  let tests := (testMap.lookup name).getD []
  let tests := tests ++ [ctx.RelPathString]
  testMap.insert name tests

/-! ## codegen.go -/

structure CodegenCommonArchProperties where
  Srcs : List String
  Cflags : List String
deriving DecidableEq

/-- The field `Static` of `CodegenLibraryArchProperties`. -/
structure StaticProperties where
  Whole_static_libs : List String
deriving DecidableEq

/-- The field `Shared` of `CodegenLibraryArchProperties`. -/
structure SharedProperties where
  Shared_libs : List String
deriving DecidableEq

structure CodegenLibraryArchProperties where
  Static : StaticProperties
  Shared : SharedProperties
deriving DecidableEq

/-- The struct `codegenArchProperties`, which embeds the two structs above. -/
structure codegenArchProperties where
  CodegenCommonArchProperties : Art.CodegenCommonArchProperties
  CodegenLibraryArchProperties : Art.CodegenLibraryArchProperties
deriving DecidableEq

/-- The field `Codegen` of `codegenProperties`. -/
structure CodegenTable where
  Arm : codegenArchProperties
  Arm64 : codegenArchProperties
  Mips : codegenArchProperties
  Mips64 : codegenArchProperties
  X86 : codegenArchProperties
  X86_64 : codegenArchProperties
deriving DecidableEq

structure codegenProperties where
  Codegen : CodegenTable
deriving DecidableEq

/-- The field `Target` of the structs `props` and `libraryProps` that `codegen`
declares: two pointers, nil (`none`) unless set. -/
structure Target (α : Type) where
  Android : Option α
  Host : Option α
deriving DecidableEq

/-- A property struct handed to `ctx.AppendProperties` by `codegen`: a `props` or a
`libraryProps`. -/
inductive Properties where
  | props (Target : Art.Target CodegenCommonArchProperties)
  | libraryProps (Target : Art.Target CodegenLibraryArchProperties)
deriving DecidableEq

/-- An error reported through `ctx.ModuleErrorf(format, args...)`. -/
structure ModuleError where
  format : String
  args : List String
deriving DecidableEq

/-- The `android.LoadHookContext` of a load hook: the configuration, the errors
reported on the context so far and the property structs appended so far. -/
structure LoadHookContext where
  config : Config
  errs : List ModuleError
  appended : List Properties

/-- Records an error on the context, as `ctx.ModuleErrorf` does. -/
def LoadHookContext.ModuleErrorf (ctx : LoadHookContext) (format : String)
    (args : List String) : LoadHookContext :=
  { ctx with errs := ctx.errs ++ [⟨format, args⟩] }

/-- Reports whether an error has been recorded, as `ctx.Failed()` does. -/
def LoadHookContext.Failed (ctx : LoadHookContext) : Bool :=
  0 < ctx.errs.length

/-- Records an appended property struct, as `ctx.AppendProperties` does. -/
def LoadHookContext.AppendProperties (ctx : LoadHookContext) (p : Properties) :
    LoadHookContext :=
  { ctx with appended := ctx.appended ++ [p] }

/-- The function `defaultDeviceCodegenArches` of codegen.go. -/
def defaultDeviceCodegenArches (ctx : LoadHookContext) : List String :=
  let arches : AList (fun _ : String => Bool) := ∅
  let arches := ctx.config.Arches.foldl (fun arches a =>
    let s := a.ArchType.toName
    let arches := arches.insert s true
    if s = "arm64" then arches.insert "arm" true
    else if s = "mips64" then arches.insert "mips" true
    else if s = "x86_64" then arches.insert "x86" true
    else arches) arches
  let ret : List String := []
  let ret := arches.keys.foldl (fun ret a => ret ++ [a]) ret
  sortStrings ret

/-- The closure `addCodegenArchProperties` of `codegen`. -/
def addCodegenArchProperties (c : codegenProperties) (library : Bool)
    (ctx : LoadHookContext) (host : Bool) (archName : String) : LoadHookContext :=
  let arch : Option codegenArchProperties :=
    if archName = "arm" then some c.Codegen.Arm
    else if archName = "arm64" then some c.Codegen.Arm64
    else if archName = "mips" then some c.Codegen.Mips
    else if archName = "mips64" then some c.Codegen.Mips64
    else if archName = "x86" then some c.Codegen.X86
    else if archName = "x86_64" then some c.Codegen.X86_64
    else none
  match arch with
  | none => ctx.ModuleErrorf "Unknown codegen architecture %q" [archName]
  | some arch =>
    let p : Art.Target CodegenCommonArchProperties :=
      if host then ⟨none, some arch.CodegenCommonArchProperties⟩
      else ⟨some arch.CodegenCommonArchProperties, none⟩
    let l : Art.Target CodegenLibraryArchProperties :=
      if host then ⟨none, some arch.CodegenLibraryArchProperties⟩
      else ⟨some arch.CodegenLibraryArchProperties, none⟩
    let ctx := ctx.AppendProperties (.props p)
    if library then ctx.AppendProperties (.libraryProps l) else ctx

/-- One of the two loops of `codegen` over a list of architecture names; the flag of
the result tells whether the loop left `codegen` through its `return`. -/
def codegenLoop (c : codegenProperties) (library : Bool) (host : Bool) :
    List String → LoadHookContext → LoadHookContext × Bool
  | [], ctx => (ctx, false)
  | arch :: rest, ctx =>
    let ctx := addCodegenArchProperties c library ctx host arch
    if ctx.Failed then (ctx, true) else codegenLoop c library host rest ctx

/-- The function `codegen` of codegen.go; the result is the context after the hook. -/
def codegen (ctx : LoadHookContext) (c : codegenProperties) (library : Bool) :
    LoadHookContext :=
  let e := envDefault ctx.config "ART_HOST_CODEGEN_ARCHS" ""
  let hostArches := if e = "" then supportedArches else stringsSplit e space
  let e := envDefault ctx.config "ART_TARGET_CODEGEN_ARCHS" ""
  let deviceArches := if e = "" then defaultDeviceCodegenArches ctx else stringsSplit e space
  let (ctx, returned) := codegenLoop c library false deviceArches ctx
  if returned then ctx
  else (codegenLoop c library true hostArches ctx).1

/-! ## makevars.go -/

end Art

/-! ## Vocabulary of the properties -/

namespace Art

/-! ### defaultDeviceCodegenArches -/

/-- The names of the device architectures of a configuration. -/
def deviceArchNames (cfg : Config) : List String :=
  cfg.Arches.map (fun a => a.ArchType.toName)

/-- The names that one device architecture contributes: its own and its 32-bit
companion, when it is one of the three 64-bit architectures. -/
def contributes (n s : String) : Prop :=
  s = n ∨ (s = "arm" ∧ n = "arm64") ∨ (s = "mips" ∧ n = "mips64") ∨ (s = "x86" ∧ n = "x86_64")

instance (n s : String) : Decidable (contributes n s) := by
  unfold contributes
  exact inferInstance

/-- One round of the first loop of `defaultDeviceCodegenArches`. -/
def addDeviceArch (arches : AList (fun _ : String => Bool)) (a : Arch) :
    AList (fun _ : String => Bool) :=
  let s := a.ArchType.toName
  let arches := arches.insert s true
  if s = "arm64" then arches.insert "arm" true
  else if s = "mips64" then arches.insert "mips" true
  else if s = "x86_64" then arches.insert "x86" true
  else arches

/-! ### codegen -/

/-- The device list that `codegen` works through: the value of
ART_TARGET_CODEGEN_ARCHS split at single spaces, or the default list when the value
is empty. -/
def effectiveDeviceArches (ctx : LoadHookContext) : List String :=
  if ctx.config.Getenv "ART_TARGET_CODEGEN_ARCHS" = "" then defaultDeviceCodegenArches ctx
  else stringsSplit (ctx.config.Getenv "ART_TARGET_CODEGEN_ARCHS") space

/-- The host list that `codegen` works through: the value of ART_HOST_CODEGEN_ARCHS
split at single spaces, or the six supported architectures when the value is empty. -/
def effectiveHostArches (cfg : Config) : List String :=
  if cfg.Getenv "ART_HOST_CODEGEN_ARCHS" = "" then supportedArches
  else stringsSplit (cfg.Getenv "ART_HOST_CODEGEN_ARCHS") space

/-- The names in the order in which `codegen` reaches them, each with the host flag it
is processed with: the device list first, then the host list. -/
def codegenOrder (ctx : LoadHookContext) : List (Bool × String) :=
  (effectiveDeviceArches ctx).map (Prod.mk false) ++
    (effectiveHostArches ctx.config).map (Prod.mk true)

/-- The error that names an unknown codegen architecture. -/
def unknownArchError (archName : String) : ModuleError :=
  ⟨"Unknown codegen architecture %q", [archName]⟩

/-- The properties of the six architectures, by name. -/
def archTable (c : codegenProperties) : List (String × codegenArchProperties) :=
  [("arm", c.Codegen.Arm), ("arm64", c.Codegen.Arm64), ("mips", c.Codegen.Mips),
    ("mips64", c.Codegen.Mips64), ("x86", c.Codegen.X86), ("x86_64", c.Codegen.X86_64)]

/-- The common properties of an architecture under Target.Host (host) or
Target.Android (device). -/
def commonBlock (host : Bool) (arch : codegenArchProperties) : Properties :=
  match host with
  | true => .props ⟨none, some arch.CodegenCommonArchProperties⟩
  | false => .props ⟨some arch.CodegenCommonArchProperties, none⟩

/-- The library properties of an architecture under Target.Host (host) or
Target.Android (device). -/
def libraryBlock (host : Bool) (arch : codegenArchProperties) : Properties :=
  match host with
  | true => .libraryProps ⟨none, some arch.CodegenLibraryArchProperties⟩
  | false => .libraryProps ⟨some arch.CodegenLibraryArchProperties, none⟩

/-- What is to be appended for one architecture name: the common block, followed by
the library block exactly when `library` is set; nothing for a name outside the
table. -/
def expectedBlock (c : codegenProperties) (library : Bool) (host : Bool)
    (archName : String) : List Properties :=
  match (archTable c).lookup archName with
  | none => []
  | some arch =>
    match library with
    | true => [commonBlock host arch, libraryBlock host arch]
    | false => [commonBlock host arch]

/-- A single pass over names that carry their own host flag, with the body and the
exit of the loops of `codegen`. -/
def runTagged (c : codegenProperties) (library : Bool) :
    List (Bool × String) → LoadHookContext → LoadHookContext × Bool
  | [], ctx => (ctx, false)
  | x :: rest, ctx =>
    let ctx := addCodegenArchProperties c library ctx x.1 x.2
    if ctx.Failed then (ctx, true) else runTagged c library rest ctx

/-! ### Concrete inputs -/

/-- A context for the examples: no error, nothing appended. -/
def exampleContext (cfg : Config) : LoadHookContext := ⟨cfg, [], []⟩

/-- A configuration for the examples with the given environment and device architectures. -/
def exampleConfig (env : String → String) (arches : List String) : Config :=
  ⟨env, true, [], [], "0x70000000", "0x60000000", arches.map (fun n => ⟨⟨n⟩⟩)⟩

/-- Architecture properties for the examples, told apart by their source list. -/
def exampleArch (n : String) : codegenArchProperties :=
  ⟨⟨[n ++ ".cc"], []⟩, ⟨⟨["lib" ++ n]⟩, ⟨[]⟩⟩⟩

/-- Codegen properties for the examples. -/
def exampleCodegen : codegenProperties :=
  ⟨⟨exampleArch "arm", exampleArch "arm64", exampleArch "mips", exampleArch "mips64",
    exampleArch "x86", exampleArch "x86_64"⟩⟩

/-- An environment that sets one variable. -/
def envWith (key value : String) : String → String :=
  fun k => if k = key then value else ""

/-! ### testInstall and makeVarsProvider -/

/-- The test identifier of an install: ("host_" or "device_") + architecture + "_" +
module name. -/
def testKey (host : Bool) (archName moduleName : String) : String :=
  (if host then "host_" else "device_") ++ archName ++ "_" ++ moduleName

/-- The list recorded under a key, empty when the key is absent. -/
def recorded (testMap : TestMap) (key : String) : List String :=
  (testMap.lookup key).getD []

/-! ### globalFlags -/

/-- The six stack-overflow-gap flags that `globalFlags` appends, with or without a
sanitizer. -/
def stackOverflowGapFlags (sanitized : Bool) : List String :=
  match sanitized with
  | true =>
    ["-DART_STACK_OVERFLOW_GAP_arm=8192", "-DART_STACK_OVERFLOW_GAP_arm64=8192",
      "-DART_STACK_OVERFLOW_GAP_mips=16384", "-DART_STACK_OVERFLOW_GAP_mips64=16384",
      "-DART_STACK_OVERFLOW_GAP_x86=16384", "-DART_STACK_OVERFLOW_GAP_x86_64=20480"]
  | false =>
    ["-DART_STACK_OVERFLOW_GAP_arm=8192", "-DART_STACK_OVERFLOW_GAP_arm64=8192",
      "-DART_STACK_OVERFLOW_GAP_mips=16384", "-DART_STACK_OVERFLOW_GAP_mips64=16384",
      "-DART_STACK_OVERFLOW_GAP_x86=8192", "-DART_STACK_OVERFLOW_GAP_x86_64=8192"]

/-- Go `strings.HasPrefix(s, pre)`, on the character lists. -/
def startsWith (s pre : String) : Bool :=
  pre.data.isPrefixOf s.data

/-- Whether a flag has the form "-DART_STACK_OVERFLOW_GAP_<arch>=...". -/
def isGapFlag (arch flag : String) : Bool :=
  startsWith flag ("-DART_STACK_OVERFLOW_GAP_" ++ arch ++ "=")

/-- The flag "-DART_STACK_OVERFLOW_GAP_<arch>=N". -/
def gapFlag (arch : String) (n : Nat) : String :=
  "-DART_STACK_OVERFLOW_GAP_" ++ arch ++ "=" ++ toString n

/-- The gap of an architecture when a sanitizer list is non-empty. -/
def sanitizerGap (arch : String) : Nat :=
  if arch = "arm" then 8192
  else if arch = "arm64" then 8192
  else if arch = "mips" then 16384
  else if arch = "mips64" then 16384
  else if arch = "x86" then 16384
  else if arch = "x86_64" then 20480
  else 0

/-- The gap of an architecture when both sanitizer lists are empty. -/
def plainGap (arch : String) : Nat :=
  if arch = "arm" then 8192
  else if arch = "arm64" then 8192
  else if arch = "mips" then 16384
  else if arch = "mips64" then 16384
  else if arch = "x86" then 8192
  else if arch = "x86_64" then 8192
  else 0

/-- A configuration whose ART_NDEBUG_OPT_FLAG is itself a stack-overflow-gap flag. -/
def gapOptConfig : Config :=
  exampleConfig (envWith "ART_NDEBUG_OPT_FLAG" "-DART_STACK_OVERFLOW_GAP_arm=8192") ["arm64"]

/-- Two installs for the examples: module "64_t" for x86 and module "t" for x86_64,
both for the host. -/
def installX86 : InstallHookContext := ⟨true, ⟨⟨"x86"⟩⟩, "64_t", "x86/64_t"⟩

/-- A third install for the examples: module "64_t" for arm, for the host. -/
def installArm : InstallHookContext := ⟨true, ⟨⟨"arm"⟩⟩, "64_t", "arm/64_t"⟩

/-- The second install of the examples. -/
def installX86_64 : InstallHookContext := ⟨true, ⟨⟨"x86_64"⟩⟩, "t", "x86_64/t"⟩

end Art

/-! ## Properties -/

namespace Art

/-! ### Sorting and map iteration -/

theorem sortStrings_sorted (l : List String) : (sortStrings l).Sorted (· ≤ ·) :=
  @List.sorted_insertionSort String (· ≤ ·) stringLEDecidable _ _ l

theorem sortStrings_perm (l : List String) : (sortStrings l).Perm l :=
  @List.perm_insertionSort String (· ≤ ·) stringLEDecidable l

theorem mem_sortStrings (l : List String) (s : String) : s ∈ sortStrings l ↔ s ∈ l :=
  (sortStrings_perm l).mem_iff

/-- Sorting does not depend on the order in which the elements arrive, so the order in
which a map is ranged over does not show in the sorted key list. -/
theorem sortStrings_eq_of_perm {l₁ l₂ : List String} (h : l₁.Perm l₂) :
    sortStrings l₁ = sortStrings l₂ :=
  List.eq_of_perm_of_sorted
    (((sortStrings_perm l₁).trans h).trans (sortStrings_perm l₂).symm)
    (sortStrings_sorted l₁) (sortStrings_sorted l₂)

theorem sortStrings_strict {l : List String} (h : l.Nodup) :
    (sortStrings l).Sorted (· < ·) :=
  (sortStrings_sorted l).lt_of_le ((sortStrings_perm l).nodup_iff.mpr h)

/-- Appending the visited elements one at a time rebuilds the visited list. -/
theorem foldl_append_singleton {α : Type} (l acc : List α) :
    l.foldl (fun ret a => ret ++ [a]) acc = acc ++ l := by
  induction l generalizing acc with
  | nil => simp
  | cons x xs ih => simp [ih]

/-! ### defaultDeviceCodegenArches -/

theorem mem_addDeviceArch (arches : AList (fun _ : String => Bool)) (a : Arch) (s : String) :
    s ∈ addDeviceArch arches a ↔ contributes a.ArchType.toName s ∨ s ∈ arches := by
  unfold addDeviceArch contributes
  by_cases h1 : a.ArchType.toName = "arm64"
  · simp only [h1, if_true, AList.mem_insert]
    simp
    tauto
  · by_cases h2 : a.ArchType.toName = "mips64"
    · simp only [h2, if_true, AList.mem_insert]
      simp
      tauto
    · by_cases h3 : a.ArchType.toName = "x86_64"
      · simp only [h3, if_true, AList.mem_insert]
        simp
        tauto
      · simp only [h1, h2, h3, if_false, AList.mem_insert]
        simp

theorem mem_foldl_addDeviceArch (l : List Arch) (arches : AList (fun _ : String => Bool))
    (s : String) :
    s ∈ l.foldl addDeviceArch arches ↔
      (∃ a ∈ l, contributes a.ArchType.toName s) ∨ s ∈ arches := by
  induction l generalizing arches with
  | nil => simp
  | cons x xs ih =>
    rw [List.foldl_cons, ih, mem_addDeviceArch]
    simp only [List.mem_cons, exists_eq_or_imp]
    constructor
    · rintro (h | h | h)
      · exact Or.inl (Or.inr h)
      · exact Or.inl (Or.inl h)
      · exact Or.inr h
    · rintro ((h | h) | h)
      · exact Or.inr (Or.inl h)
      · exact Or.inl h
      · exact Or.inr (Or.inr h)

theorem defaultDeviceCodegenArches_eq (ctx : LoadHookContext) :
    defaultDeviceCodegenArches ctx =
      sortStrings (ctx.config.Arches.foldl addDeviceArch ∅).keys := by
  unfold defaultDeviceCodegenArches
  simp only [foldl_append_singleton, List.nil_append]
  rfl

theorem mem_defaultDeviceCodegenArches (ctx : LoadHookContext) (s : String) :
    s ∈ defaultDeviceCodegenArches ctx ↔
      ∃ n ∈ deviceArchNames ctx.config, contributes n s := by
  rw [defaultDeviceCodegenArches_eq, mem_sortStrings, ← AList.mem_keys,
    mem_foldl_addDeviceArch]
  simp [deviceArchNames, AList.not_mem_empty]

/-- C1: for every list of device architectures, `defaultDeviceCodegenArches` returns a
strictly ascending list whose members are exactly the names of the device
architectures, plus "arm" when "arm64" is among them, "mips" when "mips64" is among
them and "x86" when "x86_64" is among them. -/
theorem defaultDeviceCodegenArches_spec (ctx : LoadHookContext) :
    (defaultDeviceCodegenArches ctx).Sorted (· < ·) ∧
    ∀ s : String, s ∈ defaultDeviceCodegenArches ctx ↔
      (s ∈ deviceArchNames ctx.config ∨
        (s = "arm" ∧ "arm64" ∈ deviceArchNames ctx.config) ∨
        (s = "mips" ∧ "mips64" ∈ deviceArchNames ctx.config) ∨
        (s = "x86" ∧ "x86_64" ∈ deviceArchNames ctx.config)) := by
  constructor
  · rw [defaultDeviceCodegenArches_eq]
    exact sortStrings_strict (AList.keys_nodup _)
  · intro s
    rw [mem_defaultDeviceCodegenArches]
    unfold contributes
    constructor
    · rintro ⟨n, hn, h | ⟨h, rfl⟩ | ⟨h, rfl⟩ | ⟨h, rfl⟩⟩
      · exact Or.inl (h ▸ hn)
      · exact Or.inr (Or.inl ⟨h, hn⟩)
      · exact Or.inr (Or.inr (Or.inl ⟨h, hn⟩))
      · exact Or.inr (Or.inr (Or.inr ⟨h, hn⟩))
    · rintro (h | ⟨h, hn⟩ | ⟨h, hn⟩ | ⟨h, hn⟩)
      · exact ⟨s, h, Or.inl rfl⟩
      · exact ⟨_, hn, Or.inr (Or.inl ⟨h, rfl⟩)⟩
      · exact ⟨_, hn, Or.inr (Or.inr (Or.inl ⟨h, rfl⟩))⟩
      · exact ⟨_, hn, Or.inr (Or.inr (Or.inr ⟨h, rfl⟩))⟩

/-! ### codegen -/

theorem failed_eq_false_iff (ctx : LoadHookContext) : ctx.Failed = false ↔ ctx.errs = [] := by
  unfold LoadHookContext.Failed
  cases ctx.errs <;> simp

theorem envDefault_empty (cfg : Config) (key : String) :
    envDefault cfg key "" = cfg.Getenv key := by
  unfold envDefault
  by_cases h : cfg.Getenv key = "" <;> simp [h]

/-- On a supported name the closure appends the expected block and reports nothing. -/
theorem addCodegenArchProperties_supported (c : codegenProperties) (library host : Bool)
    (ctx : LoadHookContext) (archName : String) (h : archName ∈ supportedArches) :
    addCodegenArchProperties c library ctx host archName =
      { ctx with appended := ctx.appended ++ expectedBlock c library host archName } := by
  simp only [supportedArches, List.mem_cons, List.mem_singleton, List.not_mem_nil,
    or_false] at h
  rcases h with rfl | rfl | rfl | rfl | rfl | rfl <;> cases library <;> cases host <;>
    simp [addCodegenArchProperties, expectedBlock, archTable, List.lookup, commonBlock,
      libraryBlock, LoadHookContext.AppendProperties]

/-- On any other name the closure reports the error and appends nothing. -/
theorem addCodegenArchProperties_unknown (c : codegenProperties) (library host : Bool)
    (ctx : LoadHookContext) (archName : String) (h : archName ∉ supportedArches) :
    addCodegenArchProperties c library ctx host archName =
      { ctx with errs := ctx.errs ++ [unknownArchError archName] } := by
  simp only [supportedArches, List.mem_cons, List.mem_singleton, List.not_mem_nil,
    or_false, not_or] at h
  obtain ⟨h1, h2, h3, h4, h5, h6⟩ := h
  simp [addCodegenArchProperties, h1, h2, h3, h4, h5, h6, LoadHookContext.ModuleErrorf,
    unknownArchError]

theorem codegenLoop_eq_runTagged (c : codegenProperties) (library host : Bool)
    (names : List String) (ctx : LoadHookContext) :
    codegenLoop c library host names ctx = runTagged c library (names.map (Prod.mk host)) ctx := by
  induction names generalizing ctx with
  | nil => rfl
  | cons n rest ih =>
    simp only [codegenLoop, List.map_cons, runTagged]
    split
    · rfl
    · exact ih _

theorem runTagged_append (c : codegenProperties) (library : Bool)
    (l₁ l₂ : List (Bool × String)) (ctx : LoadHookContext) :
    runTagged c library (l₁ ++ l₂) ctx =
      if (runTagged c library l₁ ctx).2 = true then runTagged c library l₁ ctx
      else runTagged c library l₂ (runTagged c library l₁ ctx).1 := by
  induction l₁ generalizing ctx with
  | nil => simp [runTagged]
  | cons x rest ih =>
    simp only [List.cons_append, runTagged]
    split
    · simp
    · exact ih _

theorem codegen_eq_runTagged (ctx : LoadHookContext) (c : codegenProperties) (library : Bool) :
    codegen ctx c library = (runTagged c library (codegenOrder ctx) ctx).1 := by
  unfold codegen codegenOrder effectiveDeviceArches effectiveHostArches
  simp only [envDefault_empty, codegenLoop_eq_runTagged, runTagged_append,
    apply_ite Prod.fst]

/-- A pass over supported names on a context without errors appends their blocks in
order, reports nothing and runs to the end. -/
theorem runTagged_supported (c : codegenProperties) (library : Bool)
    (l : List (Bool × String)) (ctx : LoadHookContext) (hf : ctx.errs = [])
    (hl : ∀ x ∈ l, x.2 ∈ supportedArches) :
    runTagged c library l ctx =
      ({ ctx with appended := ctx.appended ++ l.flatMap (fun x => expectedBlock c library x.1 x.2) },
        false) := by
  induction l generalizing ctx with
  | nil => simp [runTagged]
  | cons x rest ih =>
    have hx := hl x (List.mem_cons_self _ _)
    have hrest : ∀ y ∈ rest, y.2 ∈ supportedArches := fun y hy => hl y (List.mem_cons_of_mem _ hy)
    simp only [runTagged, addCodegenArchProperties_supported c library x.1 ctx x.2 hx]
    rw [if_neg (by simp [LoadHookContext.Failed, hf])]
    rw [ih { ctx with appended := ctx.appended ++ expectedBlock c library x.1 x.2 } hf hrest]
    simp [List.flatMap_cons, List.append_assoc]

/-- A pass that meets its first unknown name stops there: the blocks of the names
before it are appended, the error is reported once, nothing else happens. -/
theorem runTagged_unknown (c : codegenProperties) (library : Bool)
    (pre post : List (Bool × String)) (n : Bool × String) (ctx : LoadHookContext)
    (hf : ctx.errs = []) (hpre : ∀ x ∈ pre, x.2 ∈ supportedArches)
    (hn : n.2 ∉ supportedArches) :
    runTagged c library (pre ++ n :: post) ctx =
      ({ ctx with
          errs := [unknownArchError n.2]
          appended :=
            ctx.appended ++ pre.flatMap (fun x => expectedBlock c library x.1 x.2) },
        true) := by
  rw [runTagged_append, runTagged_supported c library pre ctx hf hpre]
  simp only [Bool.false_eq_true, if_false, runTagged,
    addCodegenArchProperties_unknown c library n.1 _ n.2 hn, hf, List.nil_append]
  rw [if_pos (by simp [LoadHookContext.Failed])]

theorem exists_first_unknown (l : List (Bool × String))
    (h : ∃ x ∈ l, x.2 ∉ supportedArches) :
    ∃ pre n post, l = pre ++ n :: post ∧ (∀ x ∈ pre, x.2 ∈ supportedArches) ∧
      n.2 ∉ supportedArches := by
  induction l with
  | nil => simp at h
  | cons y rest ih =>
    by_cases hy : y.2 ∈ supportedArches
    · obtain ⟨x, hx, hxn⟩ := h
      have hx2 : x ∈ rest := by
        rcases List.mem_cons.mp hx with rfl | hx2
        · exact absurd hy hxn
        · exact hx2
      obtain ⟨pre, n, post, he, hp, hn⟩ := ih ⟨x, hx2, hxn⟩
      refine ⟨y :: pre, n, post, by simp [he], ?_, hn⟩
      intro z hz
      rcases List.mem_cons.mp hz with rfl | hz2
      · exact hy
      · exact hp z hz2
    · exact ⟨[], y, rest, rfl, by simp, hy⟩

theorem exists_unknown_codegenOrder (ctx : LoadHookContext) :
    (∃ x ∈ codegenOrder ctx, x.2 ∉ supportedArches) ↔
      ∃ n ∈ effectiveDeviceArches ctx ++ effectiveHostArches ctx.config,
        n ∉ supportedArches := by
  unfold codegenOrder
  constructor
  · rintro ⟨x, hx, hn⟩
    refine ⟨x.2, ?_, hn⟩
    simp only [List.mem_append, List.mem_map] at hx ⊢
    rcases hx with ⟨a, ha, rfl⟩ | ⟨a, ha, rfl⟩
    · exact Or.inl ha
    · exact Or.inr ha
  · rintro ⟨n, hn, hu⟩
    simp only [List.mem_append] at hn
    rcases hn with hn | hn
    · exact ⟨(false, n), by simp [hn], hu⟩
    · exact ⟨(true, n), by simp [hn], hu⟩

/-- C2: on a context on which no error has been reported yet (load hooks only run on
such a context), `codegen` reports an "Unknown codegen architecture" error if and
only if some name of the effective device list or of the effective host list is not
one of the six supported names; when the first such name in processing order (device
list, then host list) is `n`, the error is reported exactly once, for `n`, and the
properties appended are those of the names before `n` only. -/
theorem codegen_unknown_architecture (ctx : LoadHookContext) (c : codegenProperties)
    (library : Bool) (hf : ctx.Failed = false) :
    ((∃ e ∈ (codegen ctx c library).errs, e.format = "Unknown codegen architecture %q") ↔
      ∃ n ∈ effectiveDeviceArches ctx ++ effectiveHostArches ctx.config,
        n ∉ supportedArches) ∧
    ∀ (pre : List (Bool × String)) (n : Bool × String) (post : List (Bool × String)),
      codegenOrder ctx = pre ++ n :: post →
      (∀ x ∈ pre, x.2 ∈ supportedArches) → n.2 ∉ supportedArches →
      (codegen ctx c library).errs = [unknownArchError n.2] ∧
      (codegen ctx c library).appended =
        ctx.appended ++ pre.flatMap (fun x => expectedBlock c library x.1 x.2) := by
  have he := (failed_eq_false_iff ctx).mp hf
  have key : ∀ (pre : List (Bool × String)) (n : Bool × String) (post : List (Bool × String)),
      codegenOrder ctx = pre ++ n :: post →
      (∀ x ∈ pre, x.2 ∈ supportedArches) → n.2 ∉ supportedArches →
      (codegen ctx c library).errs = [unknownArchError n.2] ∧
      (codegen ctx c library).appended =
        ctx.appended ++ pre.flatMap (fun x => expectedBlock c library x.1 x.2) := by
    intro pre n post hsplit hpre hn
    rw [codegen_eq_runTagged, hsplit, runTagged_unknown c library pre post n ctx he hpre hn]
    exact ⟨rfl, rfl⟩
  refine ⟨?_, key⟩
  rw [← exists_unknown_codegenOrder]
  constructor
  · rintro ⟨e, hmem, -⟩
    by_contra hall
    have hall2 : ∀ x ∈ codegenOrder ctx, x.2 ∈ supportedArches := by
      intro x hx
      by_contra hx2
      exact hall ⟨x, hx, hx2⟩
    rw [codegen_eq_runTagged, runTagged_supported c library _ ctx he hall2] at hmem
    simp [he] at hmem
  · intro h
    obtain ⟨pre, n, post, hsplit, hpre, hn⟩ := exists_first_unknown _ h
    obtain ⟨herr, -⟩ := key pre n post hsplit hpre hn
    exact ⟨unknownArchError n.2, by simp [herr], rfl⟩

/-- C2 at a concrete input: the host list "x86 riscv64 arm" with the device
architecture arm64. -/
theorem codegen_unknown_architecture_witness :
    (exampleContext (exampleConfig (envWith "ART_HOST_CODEGEN_ARCHS" "x86 riscv64 arm")
        ["arm64"])).Failed = false ∧
    (codegen (exampleContext (exampleConfig (envWith "ART_HOST_CODEGEN_ARCHS" "x86 riscv64 arm")
        ["arm64"])) exampleCodegen false).errs = [unknownArchError "riscv64"] ∧
    (codegen (exampleContext (exampleConfig (envWith "ART_HOST_CODEGEN_ARCHS" "x86 riscv64 arm")
        ["arm64"])) exampleCodegen false).appended =
      [] ++ [(false, "arm"), (false, "arm64"), (true, "x86")].flatMap
        (fun x => expectedBlock exampleCodegen false x.1 x.2) :=
  ⟨by decide,
    (codegen_unknown_architecture
      (exampleContext (exampleConfig (envWith "ART_HOST_CODEGEN_ARCHS" "x86 riscv64 arm")
        ["arm64"])) exampleCodegen false (by decide)).2
      [(false, "arm"), (false, "arm64"), (true, "x86")] (true, "riscv64") [(true, "arm")]
      (by decide) (by decide) (by decide)⟩

theorem defaultDeviceCodegenArches_supported (ctx : LoadHookContext)
    (hd : ∀ n ∈ deviceArchNames ctx.config, n ∈ supportedArches) :
    ∀ s ∈ defaultDeviceCodegenArches ctx, s ∈ supportedArches := by
  intro s hs
  obtain ⟨n, hn, h | ⟨h, -⟩ | ⟨h, -⟩ | ⟨h, -⟩⟩ := (mem_defaultDeviceCodegenArches ctx s).mp hs
  · exact h ▸ hd n hn
  · subst h; decide
  · subst h; decide
  · subst h; decide

/-- C3: when ART_HOST_CODEGEN_ARCHS and ART_TARGET_CODEGEN_ARCHS are both unset or
empty and every device architecture is one of the six supported ones, `codegen` (on a
context on which no error has been reported yet) reports no error and appends, first,
for each name of `defaultDeviceCodegenArches` in order, that architecture's common
properties under Target.Android, then, for arm, arm64, mips, mips64, x86, x86_64 in
that order, that architecture's common properties under Target.Host, each common block
followed by the same architecture's library properties under the same target exactly
when `library` is true. -/
theorem codegen_default_arches (ctx : LoadHookContext) (c : codegenProperties)
    (library : Bool) (hf : ctx.Failed = false)
    (hh : ctx.config.Getenv "ART_HOST_CODEGEN_ARCHS" = "")
    (ht : ctx.config.Getenv "ART_TARGET_CODEGEN_ARCHS" = "")
    (hd : ∀ n ∈ deviceArchNames ctx.config, n ∈ supportedArches) :
    (codegen ctx c library).errs = [] ∧
    (codegen ctx c library).appended =
      ctx.appended ++
        (defaultDeviceCodegenArches ctx).flatMap (expectedBlock c library false) ++
        ["arm", "arm64", "mips", "mips64", "x86", "x86_64"].flatMap
          (expectedBlock c library true) := by
  have he := (failed_eq_false_iff ctx).mp hf
  have horder : codegenOrder ctx =
      (defaultDeviceCodegenArches ctx).map (Prod.mk false) ++
        supportedArches.map (Prod.mk true) := by
    simp [codegenOrder, effectiveDeviceArches, effectiveHostArches, hh, ht]
  have hall : ∀ x ∈ codegenOrder ctx, x.2 ∈ supportedArches := by
    intro x hx
    rw [horder] at hx
    simp only [List.mem_append, List.mem_map] at hx
    rcases hx with ⟨a, ha, rfl⟩ | ⟨a, ha, rfl⟩
    · exact defaultDeviceCodegenArches_supported ctx hd a ha
    · exact ha
  rw [codegen_eq_runTagged, runTagged_supported c library _ ctx he hall, horder]
  refine ⟨he, ?_⟩
  have hmap : ∀ (h : Bool) (l : List String),
      (l.map (Prod.mk h)).flatMap (fun x => expectedBlock c library x.1 x.2) =
        l.flatMap (expectedBlock c library h) := by
    intro h l
    induction l with
    | nil => rfl
    | cons a l ih => simp [List.flatMap_cons, ih]
  show ctx.appended ++ _ = _
  rw [List.flatMap_append, hmap, hmap, List.append_assoc]
  rfl

/-- C3 at a concrete input: the device architecture x86_64, an empty environment, a
library module. -/
theorem codegen_default_arches_witness :
    (exampleContext (exampleConfig (fun _ => "") ["x86_64"])).Failed = false ∧
    (codegen (exampleContext (exampleConfig (fun _ => "") ["x86_64"])) exampleCodegen true).errs
      = [] ∧
    (codegen (exampleContext (exampleConfig (fun _ => "") ["x86_64"])) exampleCodegen
        true).appended =
      [] ++ ["x86", "x86_64"].flatMap (expectedBlock exampleCodegen true false) ++
        ["arm", "arm64", "mips", "mips64", "x86", "x86_64"].flatMap
          (expectedBlock exampleCodegen true true) :=
  ⟨by decide,
    codegen_default_arches (exampleContext (exampleConfig (fun _ => "") ["x86_64"]))
      exampleCodegen true (by decide) (by decide) (by decide) (by decide)⟩

/-! ### testInstall -/

theorem testInstall_name (ctx : InstallHookContext) :
    (if ctx.Host then "host_" else "device_") ++
        (ctx.Arch.ArchType.toName ++ "_" ++ ctx.ModuleName) =
      testKey ctx.Host ctx.Arch.ArchType.toName ctx.ModuleName := by
  unfold testKey
  simp only [String.append_assoc]

theorem testInstall_eq (ctx : InstallHookContext) (testMap : TestMap) :
    testInstall ctx testMap =
      testMap.insert (testKey ctx.Host ctx.Arch.ArchType.toName ctx.ModuleName)
        (recorded testMap (testKey ctx.Host ctx.Arch.ArchType.toName ctx.ModuleName) ++
          [ctx.RelPathString]) := by
  have h : ∀ k₁ k₂ : String, k₁ = k₂ →
      testMap.insert k₁ ((testMap.lookup k₁).getD [] ++ [ctx.RelPathString]) =
        testMap.insert k₂ ((testMap.lookup k₂).getD [] ++ [ctx.RelPathString]) := by
    intro k₁ k₂ hk
    subst hk
    rfl
  exact h _ _ (testInstall_name ctx)

/-- C4: for every test map, `testInstall` changes the map only at the key
("host_" or "device_") + architecture + "_" + module name: the new list at that key is
the old list (empty when the key was absent) with the installed path appended at the
end, and every other key keeps exactly its previous entry. -/
theorem testInstall_frame (ctx : InstallHookContext) (testMap : TestMap) :
    (testInstall ctx testMap).lookup (testKey ctx.Host ctx.Arch.ArchType.toName ctx.ModuleName) =
      some (recorded testMap (testKey ctx.Host ctx.Arch.ArchType.toName ctx.ModuleName) ++
        [ctx.RelPathString]) ∧
    ∀ k : String, k ≠ testKey ctx.Host ctx.Arch.ArchType.toName ctx.ModuleName →
      (testInstall ctx testMap).lookup k = testMap.lookup k := by
  rw [testInstall_eq]
  exact ⟨AList.lookup_insert _, fun k hk => AList.lookup_insert_ne hk⟩

/-! ### makeVarsProvider -/

/-- C6: `deviceFlags` and `hostFlags` each start with "-Wframe-larger-than=N" and
"-DART_FRAME_SIZE_LIMIT=N" for the same N: 7400 for `deviceFlags` when the device
sanitizer list is non-empty and 1736 otherwise, whatever the host sanitizer list is;
6400 for `hostFlags` when the host sanitizer list is non-empty and 1736 otherwise,
whatever the device sanitizer list is. -/
theorem frame_size_limit_flags (ctx : Config) :
    ((if ctx.SanitizeDevice = [] then
        ["-Wframe-larger-than=1736", "-DART_FRAME_SIZE_LIMIT=1736"]
      else ["-Wframe-larger-than=7400", "-DART_FRAME_SIZE_LIMIT=7400"]) <+:
        deviceFlags ctx) ∧
    ((if ctx.SanitizeHost = [] then
        ["-Wframe-larger-than=1736", "-DART_FRAME_SIZE_LIMIT=1736"]
      else ["-Wframe-larger-than=6400", "-DART_FRAME_SIZE_LIMIT=6400"]) <+:
        hostFlags ctx) ∧
    (∀ sanitizeHost : List String,
      deviceFlags { ctx with SanitizeHost := sanitizeHost } = deviceFlags ctx) ∧
    (∀ sanitizeDevice : List String,
      hostFlags { ctx with SanitizeDevice := sanitizeDevice } = hostFlags ctx) := by
  have h1736 : sprintfD "-Wframe-larger-than=" 1736 = "-Wframe-larger-than=1736" := by decide
  have h1736' : sprintfD "-DART_FRAME_SIZE_LIMIT=" 1736 = "-DART_FRAME_SIZE_LIMIT=1736" := by
    decide
  have h7400 : sprintfD "-Wframe-larger-than=" 7400 = "-Wframe-larger-than=7400" := by decide
  have h7400' : sprintfD "-DART_FRAME_SIZE_LIMIT=" 7400 = "-DART_FRAME_SIZE_LIMIT=7400" := by
    decide
  have h6400 : sprintfD "-Wframe-larger-than=" 6400 = "-Wframe-larger-than=6400" := by decide
  have h6400' : sprintfD "-DART_FRAME_SIZE_LIMIT=" 6400 = "-DART_FRAME_SIZE_LIMIT=6400" := by
    decide
  refine ⟨?_, ?_, fun _ => rfl, fun _ => rfl⟩
  · unfold deviceFlags
    by_cases hs : ctx.SanitizeDevice = []
    · simp only [hs, List.length_nil, lt_irrefl, if_false, if_true, h1736, h1736',
        List.nil_append]
      split <;> exact ⟨_, rfl⟩
    · have hpos : 0 < ctx.SanitizeDevice.length := List.length_pos.mpr hs
      simp only [hs, hpos, if_false, if_true, h7400, h7400', List.nil_append]
      split <;> exact ⟨_, rfl⟩
  · unfold hostFlags
    by_cases hs : ctx.SanitizeHost = []
    · simp only [hs, List.length_nil, lt_irrefl, if_false, if_true, h1736, h1736',
        List.nil_append, List.append_assoc, false_and]
      exact List.prefix_append _ _
    · have hpos : 0 < ctx.SanitizeHost.length := List.length_pos.mpr hs
      simp only [hs, hpos, if_false, if_true, h6400, h6400', List.nil_append]
      split <;> exact ⟨_, rfl⟩

/-! ### globalFlags -/

/-- The cflags of `globalFlags`, block by block. -/
theorem globalFlags_cflags (ctx : Config) :
    (globalFlags ctx).1 =
      [envDefault ctx "ART_NDEBUG_OPT_FLAG" "-O3"] ++
      ["-DART_DEFAULT_GC_TYPE_IS_" ++
        (if ctx.Getenv "ART_TEST_DEBUG_GC" = "true" then "SS"
          else envDefault ctx "ART_DEFAULT_GC_TYPE" "CMS")] ++
      (if ctx.Getenv "ART_TEST_DEBUG_GC" = "true" then ["-DART_USE_TLAB=1"] else []) ++
      ["-DIMT_SIZE=" ++ envDefault ctx "ART_IMT_SIZE" "43"] ++
      (if ctx.Getenv "ART_HEAP_POISONING" = "true" then ["-DART_HEAP_POISONING=1"] else []) ++
      (if ¬ ctx.Getenv "ART_USE_READ_BARRIER" = "false" ∧ ctx.ArtUseReadBarrier = true then
        ["-DART_USE_READ_BARRIER=1",
          "-DART_READ_BARRIER_TYPE_IS_" ++ envDefault ctx "ART_READ_BARRIER_TYPE" "BAKER" ++ "=1"]
        else []) ++
      ["-DART_DEFAULT_COMPACT_DEX_LEVEL=" ++
        envDefault ctx "ART_DEFAULT_COMPACT_DEX_LEVEL" "fast"] ++
      stackOverflowGapFlags (decide (ctx.SanitizeDevice ≠ [] ∨ ctx.SanitizeHost ≠ [])) ++
      (if ctx.Getenv "ART_ENABLE_ADDRESS_SANITIZER" = "true" then
        ["-DART_ENABLE_ADDRESS_SANITIZER=1"] else []) ++
      (if ¬ ctx.Getenv "USE_D8_DESUGAR" = "false" then ["-DUSE_D8_DESUGAR=1"] else []) := by
  have hsan : (0 < ctx.SanitizeDevice.length ∨ 0 < ctx.SanitizeHost.length) ↔
      (ctx.SanitizeDevice ≠ [] ∨ ctx.SanitizeHost ≠ []) := by
    simp [List.length_pos]
  unfold globalFlags
  simp only [envTrue, envFalse, envTrueOrDefault, stackOverflowGapFlags, hsan]
  by_cases h1 : ctx.Getenv "ART_TEST_DEBUG_GC" = "true" <;>
  by_cases h2 : ctx.Getenv "ART_HEAP_POISONING" = "true" <;>
  by_cases h3 : ctx.Getenv "ART_USE_READ_BARRIER" = "false" <;>
  by_cases h4 : ctx.ArtUseReadBarrier = true <;>
  by_cases h5 : (ctx.SanitizeDevice ≠ [] ∨ ctx.SanitizeHost ≠ []) <;>
  by_cases h6 : ctx.Getenv "ART_ENABLE_ADDRESS_SANITIZER" = "true" <;>
  by_cases h7 : ctx.Getenv "USE_D8_DESUGAR" = "false" <;>
  simp [h1, h2, h3, h4, h5, h6, h7]

/-- The asflags of `globalFlags`, block by block. -/
theorem globalFlags_asflags (ctx : Config) :
    (globalFlags ctx).2 =
      (if ctx.Getenv "ART_HEAP_POISONING" = "true" then ["-DART_HEAP_POISONING=1"] else []) ++
      (if ¬ ctx.Getenv "ART_USE_READ_BARRIER" = "false" ∧ ctx.ArtUseReadBarrier = true then
        ["-DART_USE_READ_BARRIER=1",
          "-DART_READ_BARRIER_TYPE_IS_" ++ envDefault ctx "ART_READ_BARRIER_TYPE" "BAKER" ++ "=1"]
        else []) ++
      (if ctx.Getenv "ART_ENABLE_ADDRESS_SANITIZER" = "true" then
        ["-DART_ENABLE_ADDRESS_SANITIZER=1"] else []) ++
      (if ctx.Getenv "ART_MIPS32_CHECK_ALIGNMENT" = "true" then
        ["-DART_MIPS32_CHECK_ALIGNMENT"] else []) := by
  unfold globalFlags
  simp only [envTrue, envFalse, envTrueOrDefault]
  by_cases h2 : ctx.Getenv "ART_HEAP_POISONING" = "true" <;>
  by_cases h3 : ctx.Getenv "ART_USE_READ_BARRIER" = "false" <;>
  by_cases h4 : ctx.ArtUseReadBarrier = true <;>
  by_cases h6 : ctx.Getenv "ART_ENABLE_ADDRESS_SANITIZER" = "true" <;>
  by_cases h7 : ctx.Getenv "ART_MIPS32_CHECK_ALIGNMENT" = "true" <;>
  simp [h2, h3, h4, h6, h7]

/-- C8: in `globalFlags` the first cflag is the value of ART_NDEBUG_OPT_FLAG ("-O3" when
unset or empty) and the second is the garbage-collector flag; when ART_TEST_DEBUG_GC is
"true" that flag is "-DART_DEFAULT_GC_TYPE_IS_SS" whatever ART_DEFAULT_GC_TYPE is and
the third cflag is "-DART_USE_TLAB=1"; otherwise it is "-DART_DEFAULT_GC_TYPE_IS_" +
ART_DEFAULT_GC_TYPE ("CMS" when unset or empty) and the third cflag is the
"-DIMT_SIZE=" flag, which is not the TLAB flag. -/
theorem globalFlags_opt_and_gc (ctx : Config) :
    ((globalFlags ctx).1.take 3 =
      if ctx.Getenv "ART_TEST_DEBUG_GC" = "true" then
        [if ctx.Getenv "ART_NDEBUG_OPT_FLAG" = "" then "-O3"
            else ctx.Getenv "ART_NDEBUG_OPT_FLAG",
          "-DART_DEFAULT_GC_TYPE_IS_SS",
          "-DART_USE_TLAB=1"]
      else
        [if ctx.Getenv "ART_NDEBUG_OPT_FLAG" = "" then "-O3"
            else ctx.Getenv "ART_NDEBUG_OPT_FLAG",
          "-DART_DEFAULT_GC_TYPE_IS_" ++
            (if ctx.Getenv "ART_DEFAULT_GC_TYPE" = "" then "CMS"
              else ctx.Getenv "ART_DEFAULT_GC_TYPE"),
          "-DIMT_SIZE=" ++
            (if ctx.Getenv "ART_IMT_SIZE" = "" then "43" else ctx.Getenv "ART_IMT_SIZE")]) ∧
    ((globalFlags ctx).1[2]? = some "-DART_USE_TLAB=1" ↔
      ctx.Getenv "ART_TEST_DEBUG_GC" = "true") := by
  rw [globalFlags_cflags]
  simp only [envDefault]
  by_cases hgc : ctx.Getenv "ART_TEST_DEBUG_GC" = "true"
  · simp [hgc]
  · simp [hgc, String.ext_iff]

/-- C9: in `globalFlags` the asflags contain "-DART_USE_READ_BARRIER=1" if and only if
ART_USE_READ_BARRIER is not "false" and the configuration's ArtUseReadBarrier is true;
in that case both cflags and asflags contain "-DART_USE_READ_BARRIER=1" immediately
followed by "-DART_READ_BARRIER_TYPE_IS_" + T + "=1", where T is ART_READ_BARRIER_TYPE,
or BAKER when that variable is unset or empty. -/
theorem globalFlags_read_barrier (ctx : Config) :
    ("-DART_USE_READ_BARRIER=1" ∈ (globalFlags ctx).2 ↔
      (ctx.Getenv "ART_USE_READ_BARRIER" ≠ "false" ∧ ctx.ArtUseReadBarrier = true)) ∧
    ((ctx.Getenv "ART_USE_READ_BARRIER" ≠ "false" ∧ ctx.ArtUseReadBarrier = true) →
      ["-DART_USE_READ_BARRIER=1",
          "-DART_READ_BARRIER_TYPE_IS_" ++
            (if ctx.Getenv "ART_READ_BARRIER_TYPE" = "" then "BAKER"
              else ctx.Getenv "ART_READ_BARRIER_TYPE") ++ "=1"] <:+: (globalFlags ctx).1 ∧
      ["-DART_USE_READ_BARRIER=1",
          "-DART_READ_BARRIER_TYPE_IS_" ++
            (if ctx.Getenv "ART_READ_BARRIER_TYPE" = "" then "BAKER"
              else ctx.Getenv "ART_READ_BARRIER_TYPE") ++ "=1"] <:+: (globalFlags ctx).2) := by
  rw [globalFlags_cflags, globalFlags_asflags]
  constructor
  · by_cases hrb : ¬ ctx.Getenv "ART_USE_READ_BARRIER" = "false" ∧ ctx.ArtUseReadBarrier = true
    · simp [hrb]
    · simp only [hrb, if_false, List.append_nil, List.mem_append, ne_eq, iff_false]
      by_cases h2 : ctx.Getenv "ART_HEAP_POISONING" = "true" <;>
      by_cases h6 : ctx.Getenv "ART_ENABLE_ADDRESS_SANITIZER" = "true" <;>
      by_cases h7 : ctx.Getenv "ART_MIPS32_CHECK_ALIGNMENT" = "true" <;>
      simp [h2, h6, h7]
  · intro hrb
    have hrb2 : ¬ ctx.Getenv "ART_USE_READ_BARRIER" = "false" ∧ ctx.ArtUseReadBarrier = true :=
      hrb
    simp only [hrb2, and_self, not_false_eq_true, if_true, envDefault]
    constructor
    · exact (((List.infix_append _ _ _).trans (List.prefix_append _ _).isInfix).trans
        (List.prefix_append _ _).isInfix).trans (List.prefix_append _ _).isInfix
    · exact (List.infix_append _ _ _).trans (List.prefix_append _ _).isInfix

/-- C7, as stated, fails: the first cflag is the raw value of ART_NDEBUG_OPT_FLAG, and
an environment that sets it to a gap flag makes the cflags hold two flags of the form
"-DART_STACK_OVERFLOW_GAP_arm=N". -/
theorem globalFlags_two_gap_flags :
    ((globalFlags gapOptConfig).1.filter (isGapFlag "arm")).length = 2 ∧
    List.count "-DART_STACK_OVERFLOW_GAP_arm=8192" (globalFlags gapOptConfig).1 = 2 := by
  decide

theorem filter_ite_nil {α : Type} (p : α → Bool) (c : Prop) [Decidable c] (l : List α) :
    (if c then l else []).filter p = if c then l.filter p else [] := by
  split <;> rfl

/-- C7 (amended): for every environment and configuration, the cflags of `globalFlags`
after the first one (the raw value of ART_NDEBUG_OPT_FLAG) contain exactly one flag of
the form "-DART_STACK_OVERFLOW_GAP_<arch>=N" for each of the six architectures; its N
is the sanitizer value when the device or the host sanitizer list is non-empty and the
plain value when both are empty, and the sanitizer value is never the smaller one
(x86: 16384 against 8192; x86_64: 20480 against 8192; arm and arm64 8192, mips and
mips64 16384 in both cases). -/
theorem globalFlags_stack_overflow_gap (ctx : Config) (arch : String)
    (h : arch ∈ supportedArches) :
    (globalFlags ctx).1.tail.filter (isGapFlag arch) =
      [gapFlag arch
        (if ctx.SanitizeDevice ≠ [] ∨ ctx.SanitizeHost ≠ [] then sanitizerGap arch
          else plainGap arch)] ∧
    plainGap arch ≤ sanitizerGap arch := by
  rw [globalFlags_cflags]
  simp only [supportedArches, List.mem_cons, List.mem_singleton, List.not_mem_nil,
    or_false] at h
  by_cases hs : ctx.SanitizeDevice ≠ [] ∨ ctx.SanitizeHost ≠ []
  · rcases h with rfl | rfl | rfl | rfl | rfl | rfl <;>
    simp [hs, List.filter_append, filter_ite_nil, List.filter_cons, isGapFlag, startsWith,
      stackOverflowGapFlags, gapFlag, sanitizerGap, plainGap, String.data_append] <;>
    decide
  · rcases h with rfl | rfl | rfl | rfl | rfl | rfl <;>
    simp [hs, List.filter_append, filter_ite_nil, List.filter_cons, isGapFlag, startsWith,
      stackOverflowGapFlags, gapFlag, sanitizerGap, plainGap, String.data_append] <;>
    decide

/-- C7 (amended) at a concrete input: x86_64 without sanitizer. -/
theorem globalFlags_stack_overflow_gap_witness :
    "x86_64" ∈ supportedArches ∧
    (globalFlags (exampleConfig (fun _ => "") ["arm64"])).1.tail.filter (isGapFlag "x86_64") =
      ["-DART_STACK_OVERFLOW_GAP_x86_64=8192"] ∧
    plainGap "x86_64" ≤ sanitizerGap "x86_64" :=
  ⟨by decide,
    globalFlags_stack_overflow_gap (exampleConfig (fun _ => "") ["arm64"]) "x86_64"
      (by decide)⟩

/-! ### The test identifier -/

/-- C10, as stated, fails: an x86 install of module "64_t" and an x86_64 install of
module "t" differ in architecture and module name, and `testInstall` records both
paths under the one key "host_x86_64_t". -/
theorem testInstall_key_collision :
    installX86.Arch.ArchType.toName ∈ supportedArches ∧
    installX86_64.Arch.ArchType.toName ∈ supportedArches ∧
    (installX86.Host, installX86.Arch.ArchType.toName, installX86.ModuleName) ≠
      (installX86_64.Host, installX86_64.Arch.ArchType.toName, installX86_64.ModuleName) ∧
    testKey installX86.Host installX86.Arch.ArchType.toName installX86.ModuleName =
      testKey installX86_64.Host installX86_64.Arch.ArchType.toName installX86_64.ModuleName ∧
    (testInstall installX86_64 (testInstall installX86 ∅)).keys = ["host_x86_64_t"] ∧
    (testInstall installX86_64 (testInstall installX86 ∅)).lookup "host_x86_64_t" =
      some ["x86/64_t", "x86_64/t"] := by
  decide

/-- Identifiers of different triples differ, the pair x86 / x86_64 with a module name
that starts with "64_" apart. -/
theorem testKey_ne (h₁ h₂ : Bool) (a₁ a₂ m₁ m₂ : String)
    (ha₁ : a₁ ∈ supportedArches) (ha₂ : a₂ ∈ supportedArches)
    (hne : (h₁, a₁, m₁) ≠ (h₂, a₂, m₂))
    (hx : ¬ (h₁ = h₂ ∧ a₁ = "x86" ∧ a₂ = "x86_64" ∧ m₁ = "64_" ++ m₂))
    (hy : ¬ (h₁ = h₂ ∧ a₂ = "x86" ∧ a₁ = "x86_64" ∧ m₂ = "64_" ++ m₁)) :
    testKey h₁ a₁ m₁ ≠ testKey h₂ a₂ m₂ := by
  simp only [supportedArches, List.mem_cons, List.mem_singleton, List.not_mem_nil,
    or_false] at ha₁ ha₂
  unfold testKey
  rcases ha₁ with rfl | rfl | rfl | rfl | rfl | rfl <;>
  rcases ha₂ with rfl | rfl | rfl | rfl | rfl | rfl <;>
  cases h₁ <;> cases h₂ <;>
  simp [String.ext_iff] at hne hx hy ⊢ <;>
  first
    | assumption
    | exact fun h => hy h.symm

/-- C10 (amended): for every two installs whose (host flag, architecture name among the
six supported ones, module name) triples differ, the test identifiers differ, and so
the one install leaves the entry of the other untouched, unless the host flags agree,
one architecture is x86, the other is x86_64, and the module name of the x86 install
is "64_" followed by the module name of the other. -/
theorem testInstall_key_injective (ctx₁ ctx₂ : InstallHookContext) (testMap : TestMap)
    (ha₁ : ctx₁.Arch.ArchType.toName ∈ supportedArches)
    (ha₂ : ctx₂.Arch.ArchType.toName ∈ supportedArches)
    (hne : (ctx₁.Host, ctx₁.Arch.ArchType.toName, ctx₁.ModuleName) ≠
      (ctx₂.Host, ctx₂.Arch.ArchType.toName, ctx₂.ModuleName))
    (hx : ¬ (ctx₁.Host = ctx₂.Host ∧ ctx₁.Arch.ArchType.toName = "x86" ∧
      ctx₂.Arch.ArchType.toName = "x86_64" ∧ ctx₁.ModuleName = "64_" ++ ctx₂.ModuleName))
    (hy : ¬ (ctx₁.Host = ctx₂.Host ∧ ctx₂.Arch.ArchType.toName = "x86" ∧
      ctx₁.Arch.ArchType.toName = "x86_64" ∧ ctx₂.ModuleName = "64_" ++ ctx₁.ModuleName)) :
    testKey ctx₁.Host ctx₁.Arch.ArchType.toName ctx₁.ModuleName ≠
      testKey ctx₂.Host ctx₂.Arch.ArchType.toName ctx₂.ModuleName ∧
    (testInstall ctx₁ testMap).lookup
        (testKey ctx₂.Host ctx₂.Arch.ArchType.toName ctx₂.ModuleName) =
      testMap.lookup (testKey ctx₂.Host ctx₂.Arch.ArchType.toName ctx₂.ModuleName) := by
  have hkey := testKey_ne ctx₁.Host ctx₂.Host ctx₁.Arch.ArchType.toName
    ctx₂.Arch.ArchType.toName ctx₁.ModuleName ctx₂.ModuleName ha₁ ha₂ hne hx hy
  refine ⟨hkey, ?_⟩
  rw [testInstall_eq]
  exact AList.lookup_insert_ne (Ne.symm hkey)

/-- C10 (amended) at a concrete input: arm module "64_t" against x86_64 module "t". -/
theorem testInstall_key_injective_witness :
    installArm.Arch.ArchType.toName ∈ supportedArches ∧
    installX86_64.Arch.ArchType.toName ∈ supportedArches ∧
    testKey installArm.Host installArm.Arch.ArchType.toName installArm.ModuleName ≠
      testKey installX86_64.Host installX86_64.Arch.ArchType.toName
        installX86_64.ModuleName ∧
    (testInstall installArm (testInstall installX86_64 ∅)).lookup
        (testKey installX86_64.Host installX86_64.Arch.ArchType.toName
          installX86_64.ModuleName) =
      (testInstall installX86_64 ∅).lookup
        (testKey installX86_64.Host installX86_64.Arch.ArchType.toName
          installX86_64.ModuleName) :=
  ⟨by decide, by decide,
    testInstall_key_injective installArm installX86_64 (testInstall installX86_64 ∅)
      (by decide) (by decide) (by decide) (by decide) (by decide)⟩

end Art
